import Mathlib

/-!
A shallow embedding of the incremental issue-clustering engine of the
`nixo_FDE_slackbot` backend (`backend/services.py` and `backend/models.py`),
together with theorems settling the frozen claims about its specification.

Modelling conventions:
* Python floats are modelled as exact rationals (`ℚ`); `NaN` has no
  counterpart in `ℚ`, so the `isnan` guards of the source degenerate.
* `numpy.linalg.norm` takes a real square root; the square root on `ℚ` is
  modelled by `Rat.sqrt`, which agrees with the real square root on every
  perfect rational square.  All concrete instances evaluated below only take
  square roots of perfect squares, and no universal theorem in this file
  depends on the value of the square root elsewhere.
* `math.exp` is transcendental and has no computable counterpart on `ℚ`;
  the map `x ↦ 2^(-x)` used by the temporal decay (`exp (-ln 2 * x)`) is
  supplied by the oracle environment (`Env.pow2neg`).  No claim constrains
  its values.
* The external services (OpenAI classification / selection / follow-up
  oracles, the sentence-transformer encoder, the wall clock, the outcome of
  the message `INSERT` transaction and of `float(ts)` parsing) are fields of
  an explicit environment record `Env`, exactly at the interface boundary
  where `services.py` calls them.
* Python dictionaries (insertion ordered) are modelled as association
  lists, SQL tables as lists of records, and the stable Timsort of
  `list.sort` as `List.insertionSort` (also stable).
-/

namespace SlackBot

/-- Vectors (`numpy` float arrays) are lists of exact rationals. -/
abbrev Vec := List ℚ

/-! ### Configuration constants (`os.getenv` defaults in services.py) -/

def EMBEDDING_DIM : Nat := 384
def DEFAULT_SEARCH_THRESHOLD : ℚ := 35/100
def DEFAULT_TEMPORAL_WEIGHT : ℚ := 35/100
def DEFAULT_TIME_DECAY_HOURS : ℚ := 24
def DEFAULT_TOP_K : Nat := 3
def MAX_CACHE_SIZE : Nat := 10000
def FIRST_N_MESSAGES_FOR_CENTROID : Nat := 5
def MIN_WORDS_FOR_MEANINGFUL_MSG : Nat := 5
def SHORT_MSG_WORD_THRESHOLD : Nat := 6
def ANN_FETCH_K : Nat := 25

/-! ### Elementary vector operations -/

/-- `np.dot` on equal-length float vectors. -/
def dot (a b : Vec) : ℚ := (List.zipWith (· * ·) a b).sum

/-- Squared Euclidean norm; `np.linalg.norm v = Real.sqrt (norm_sq v)`. -/
def norm_sq (v : Vec) : ℚ := dot v v

/-- `_normalize` from services.py: divide by the Euclidean norm unless it is
zero (or NaN, which `ℚ` cannot represent).  The square root is modelled by
`Rat.sqrt`, exact on perfect squares. -/
def _normalize (v : Vec) : Vec :=
  let norm := Rat.sqrt (norm_sq v)
  if norm = 0 then v else v.map (· / norm)

/-- `cosine_sim` from services.py: `0.0` when either argument is `None`,
otherwise the dot product of the two normalized vectors. -/
def cosine_sim (a b : Option Vec) : ℚ :=
  match a, b with
  | some a, some b => dot (_normalize a) (_normalize b)
  | _, _ => 0

/-- `temporal_decay_score` from services.py, on timestamps in seconds:
`exp (-ln 2 * Δhours / halfLife) = 2 ^ (-(Δhours / halfLife))`.  The
transcendental map `x ↦ 2^(-x)` is supplied by the caller (`pow2neg`). -/
def temporal_decay_score (pow2neg : ℚ → ℚ) (query_ts issue_ts half_life_hours : ℚ) : ℚ :=
  let time_diff_hours := |query_ts - issue_ts| / 3600
  pow2neg (time_diff_hours / half_life_hours)

/-- Python falsiness of an optional string (`None` and `""` are falsy). -/
def pyFalsy : Option String → Bool
  | none => true
  | some s => s = ""

/-- `classification_boost` from services.py.  Labels are optional strings
(`classification.get("label")` may be `None`, `Issue.classification` is
nullable); `not issue_label` is Python falsiness. -/
def classification_boost (msg_label issue_label : Option String) : ℚ :=
  if pyFalsy issue_label then 0
  else if msg_label = issue_label then 15/100 else -(5/100)

/-! ### The threshold gate (services.py lines 549-582)

The decision taken on the top reranked score inside `process_message`:
accept outright, escalate to the disambiguation oracle, or fall through to
creating a new issue.  The nested conditionals of the source are captured
verbatim; both oracle branches of the source behave identically (call
`select_issue_with_llm` with the single best candidate). -/

inductive GateDecision where
  | accept
  | confirm
  | createNew
deriving DecidableEq, Repr

/-- The two-level conditional of services.py lines 558-579 on the top
reranked score, with `threshold` playing `DEFAULT_SEARCH_THRESHOLD`. -/
def threshold_gate (threshold s : ℚ) : GateDecision :=
  if threshold ≤ s then
    if 6/10 ≤ s then .accept else .confirm
  else
    if threshold * (1/2) ≤ s then .confirm else .createNew

/-! ### Python string primitives

Python `str.strip` / `str.split()` word counting, modelled structurally on
the character list of the string (kernel-computable, unlike `String.trim`). -/

/-- Python `str.strip()`: drop leading and trailing whitespace. -/
def pyStrip (s : String) : String :=
  ⟨(((s.data.dropWhile Char.isWhitespace).reverse.dropWhile Char.isWhitespace).reverse)⟩

/-- Count of maximal non-whitespace runs: `len(text.split())`. -/
def wordCountAux : List Char → Bool → Nat
  | [], _ => 0
  | c :: rest, inWord =>
    if c.isWhitespace then wordCountAux rest false
    else (if inWord then 0 else 1) + wordCountAux rest true

/-- `len(text.split())` from services.py. -/
def wordCount (s : String) : Nat := wordCountAux s.data false

/-! ### Stable sorting and ordered dictionaries

Python's `list.sort` is a stable sort; `List.insertionSort` is stable, so the
two agree on every key function.  SQL `ORDER BY` ties are resolved by row
insertion order (SQLite scans in rowid order), which stable sorting of the
insertion-ordered table model reproduces. -/

/-- Stable descending sort by a rational key (`list.sort(key=..., reverse=True)`). -/
def sortDescBy {α : Type _} (f : α → ℚ) (l : List α) : List α :=
  List.insertionSort (fun a b => f b ≤ f a) l

/-- Stable ascending sort by a rational key (`ORDER BY ... ASC`). -/
def sortAscBy {α : Type _} (f : α → ℚ) (l : List α) : List α :=
  List.insertionSort (fun a b => f a ≤ f b) l

/-- Insertion-ordered dictionary update (`d[k] = v`): overwrite in place if
the key is present, else append. -/
def dictSet {α : Type _} (d : List (Nat × α)) (k : Nat) (v : α) : List (Nat × α) :=
  if d.any (fun p => p.1 = k) then d.map (fun p => if p.1 = k then (k, v) else p)
  else d ++ [(k, v)]

/-- Dictionary lookup (`d.get(k)`). -/
def dictGet {α : Type _} (d : List (Nat × α)) (k : Nat) : Option α :=
  (d.find? (fun p => p.1 = k)).map (·.2)

/-! ### Data model (backend/models.py, as used by services.py)

`services.py` reads and writes an `embedding` attribute on `Issue` and a
`thread_ts` attribute on `Message`; both are modelled as record fields.
Timestamps are rationals (seconds since the epoch, timezone-aware by
construction, so the `tzinfo` normalizations of the source are identities). -/

structure MessageRec where
  id : Nat
  slack_ts : String
  thread_ts : Option String
  channel_id : Option String
  user_id : Option String
  text : String
  timestamp : ℚ
  classification : Option String
  confidence : ℚ
  is_relevant : Bool
  embedding : Option Vec
  issue_id : Option Nat
deriving DecidableEq, Repr

structure IssueRec where
  id : Nat
  title : String
  summary : String
  created_at : ℚ
  updated_at : ℚ
  status : String
  classification : Option String
  embedding : Option Vec
deriving DecidableEq, Repr

/-- The relational store: tables in row-insertion order plus autoincrement
counters for the primary keys. -/
structure DB where
  messages : List MessageRec
  issues : List IssueRec
  next_message_id : Nat
  next_issue_id : Nat
deriving DecidableEq, Repr

/-- `SELECT ... WHERE Message.slack_ts == ts` (first match). -/
def DB.findMessageByTs (db : DB) (ts : String) : Option MessageRec :=
  db.messages.find? (fun m => m.slack_ts = ts)

/-- `session.get(Issue, iid)`. -/
def DB.getIssue (db : DB) (iid : Nat) : Option IssueRec :=
  db.issues.find? (fun i => i.id = iid)

/-- `session.add(issue); session.commit()` for an already-persisted issue:
replace the row with the same primary key. -/
def DB.setIssue (db : DB) (issue : IssueRec) : DB :=
  { db with issues := db.issues.map (fun i => if i.id = issue.id then issue else i) }

/-- `SELECT ... WHERE channel_id == channel AND slack_ts != ts ORDER BY
timestamp DESC LIMIT 1`. -/
def DB.mostRecentInChannel (db : DB) (channel : Option String) (ts : String) : Option MessageRec :=
  (sortDescBy (·.timestamp)
    (db.messages.filter (fun m => m.channel_id = channel ∧ m.slack_ts ≠ ts))).head?

/-- `SELECT ... WHERE issue_id == iid ORDER BY timestamp ASC LIMIT n`. -/
def DB.messagesForIssueAsc (db : DB) (iid : Nat) (n : Nat) : List MessageRec :=
  (sortAscBy (·.timestamp) (db.messages.filter (fun m => m.issue_id = some iid))).take n

/-! ### Oracle environment

Everything `services.py` consumes across a process boundary: the LLM
classification / selection / follow-up oracles (each modelled at the point
where the source consumes their result, with the source's fail-soft
defaults folded into the arbitrary function), the sentence-transformer
encoder, the wall clock, `float(...)` timestamp parsing, the outcome of the
message `INSERT` transaction, and the transcendental map `x ↦ 2^(-x)`
needed by the temporal decay. -/

structure ClassifyResult where
  label : Option String
  is_relevant : Bool
  confidence : ℚ
  summary : String
deriving DecidableEq, Repr

structure Env where
  /-- `classify_message_with_llm` (fail-soft default irrelevant included). -/
  classify : String → ClassifyResult
  /-- `embedding_model.encode`. -/
  encode : String → Vec
  /-- outcome of `check_if_followup_to_previous` (LLM verdict with the
  `confidence ≥ 0.6` acceptance already applied, `False` on failure). -/
  is_followup : String → ℚ → MessageRec → Bool
  /-- outcome of `select_issue_with_llm` over the given candidates. -/
  select_issue : String → List IssueRec → Option ℚ → Option Nat
  /-- the map `x ↦ 2^(-x)`, i.e. `exp (-ln 2 * x)`. -/
  pow2neg : ℚ → ℚ
  /-- `float(ts)` : `none` models a `ValueError`. -/
  parse_ts : String → Option ℚ
  /-- `datetime.now(timezone.utc)`. -/
  now : ℚ
  /-- whether the `INSERT` of the message commits (services.py 604-624). -/
  persist_ok : Bool

/-- `get_semantic_embedding` from services.py. -/
def get_semantic_embedding (env : Env) (text : String) : Vec :=
  _normalize (env.encode text)

/-- `get_metadata_embedding` from services.py. -/
def get_metadata_embedding (env : Env) (text user channel ts : String) : Vec :=
  _normalize (env.encode
    ("Channel: " ++ channel ++ " User: " ++ user ++ " Time: " ++ ts ++ " Text: " ++ text))

/-! ### Vector index (`VectorStore` in services.py)

The FAISS `IndexIDMap(IndexFlatIP)` is modelled as the list of `(id,
vector)` pairs in insertion order; exact inner-product search returns the
`k` largest inner products in descending order (ties in scan order, which
the stable sort reproduces).  The `issue_metadata_embeddings` dictionary can
explicitly store `None` (as `add_issue` does), and `.get` collapses a
missing key and a stored `None`. -/

structure VectorStore where
  dim : Nat
  entries : List (Nat × Vec)
  issue_timestamps : List (Nat × ℚ)
  issue_metadata_embeddings : List (Nat × Option Vec)
deriving DecidableEq, Repr

/-- `self.issue_metadata_embeddings.get(issue_id)`: `None` for a missing key
or an explicitly stored `None`. -/
def VectorStore.mdGet (store : VectorStore) (issue_id : Nat) : Option Vec :=
  (dictGet store.issue_metadata_embeddings issue_id).join

/-- The per-candidate combined score of `VectorStore.search` (services.py
lines 303-324): the raw inner product, blended `0.9/0.1` with the cached
metadata similarity when one is cached, then blended with the temporal decay
when a query timestamp is given and the issue has a recorded timestamp. -/
def ann_combine (store : VectorStore) (pow2neg : ℚ → ℚ) (query_timestamp : Option ℚ)
    (temporal_weight time_decay_hours : ℚ) (embedding : Vec) (issue_id : Nat) (raw : ℚ) : ℚ :=
  let combined := raw
  let combined :=
    match store.mdGet issue_id with
    | some md_vec => combined * (9/10) + dot embedding md_vec * (1/10)
    | none => combined
  match query_timestamp, dictGet store.issue_timestamps issue_id with
  | some qts, some its =>
      (1 - temporal_weight) * combined
        + temporal_weight * temporal_decay_score pow2neg qts its time_decay_hours
  | _, _ => combined

/-- `VectorStore.search` from services.py.  The `threshold` argument is
accepted and ignored, as in the source (the comment there: keep candidates
even if below threshold; higher layer decides). -/
def VectorStore.search (store : VectorStore) (pow2neg : ℚ → ℚ) (embedding : Vec)
    (_threshold : ℚ) (query_timestamp : Option ℚ) (temporal_weight time_decay_hours : ℚ)
    (top_k fetch_k : Nat) : List (Nat × ℚ) :=
  if store.entries.length = 0 then []
  else
    let emb := _normalize embedding
    let fk := min fetch_k store.entries.length
    let fetched := (sortDescBy (·.2) (store.entries.map (fun p => (p.1, dot emb p.2)))).take fk
    let candidates := fetched.map (fun c =>
      (c.1, ann_combine store pow2neg query_timestamp temporal_weight time_decay_hours emb c.1 c.2))
    (sortDescBy (·.2) candidates).take top_k

/-- `VectorStore.add_issue` from services.py: normalize, reject on wrong
dimension, remove-then-add the index entry, record the timestamp (or `now`),
and reset the cached metadata embedding to `None`. -/
def VectorStore.add_issue (store : VectorStore) (issue_id : Nat) (embedding : Vec)
    (timestamp : Option ℚ) (now : ℚ) : VectorStore :=
  let vec := _normalize embedding
  if vec.length ≠ store.dim then store
  else
    { store with
      entries := (store.entries.filter (fun p => p.1 ≠ issue_id)) ++ [(issue_id, vec)],
      issue_timestamps := dictSet store.issue_timestamps issue_id (timestamp.getD now),
      issue_metadata_embeddings := dictSet store.issue_metadata_embeddings issue_id none }

/-- `VectorStore._load_from_db` from services.py: bulk-load every issue with
a stored embedding, skipping dimension mismatches, and cache a metadata
embedding of `title summary` for each loaded issue. -/
def VectorStore.load_from_db (env : Env) (db : DB) : VectorStore :=
  (db.issues.filter (fun i => i.embedding ≠ none)).foldl
    (fun store issue =>
      match issue.embedding with
      | none => store
      | some emb =>
        let vec := _normalize emb
        if vec.length ≠ store.dim then store
        else
          { store with
            entries := store.entries ++ [(issue.id, vec)],
            issue_timestamps := dictSet store.issue_timestamps issue.id issue.updated_at,
            issue_metadata_embeddings := dictSet store.issue_metadata_embeddings issue.id
              (some (_normalize (env.encode (issue.title ++ " " ++ issue.summary)))) })
    { dim := EMBEDDING_DIM, entries := [], issue_timestamps := [],
      issue_metadata_embeddings := [] }

/-- The store mutations available within a process lifetime: the only
method that writes the singleton `VectorStore` after construction is
`add_issue` (search is read-only; `_load_from_db` runs only at creation). -/
inductive StoreOp where
  | upsert (issue_id : Nat) (embedding : Vec) (timestamp : Option ℚ) (now : ℚ)

def applyStoreOps (store : VectorStore) : List StoreOp → VectorStore
  | [] => store
  | .upsert i v t n :: rest => applyStoreOps (store.add_issue i v t n) rest

/-! ### Hybrid scorer (services.py `compute_hybrid_scores_for_candidates`) -/

/-- The combined score of one candidate issue (services.py lines 400-423). -/
def hybrid_score (pow2neg : ℚ → ℚ) (store : VectorStore) (semantic_vec metadata_vec : Vec)
    (msg_timestamp : ℚ) (msg_label : Option String) (now : ℚ) (issue : IssueRec) : ℚ :=
  let issue_centroid := issue.embedding.map _normalize
  let semantic_score :=
    match issue_centroid with
    | some c => cosine_sim (some semantic_vec) (some c)
    | none =>
      match store.mdGet issue.id with
      | some md => cosine_sim (some semantic_vec) (some md)
      | none => 0
  let md_score :=
    match store.mdGet issue.id with
    | some md => cosine_sim (some metadata_vec) (some md)
    | none => 0
  let issue_time := (dictGet store.issue_timestamps issue.id).getD now
  let temp_score := temporal_decay_score pow2neg msg_timestamp issue_time DEFAULT_TIME_DECAY_HOURS
  let cboost := classification_boost msg_label issue.classification
  (3/10) * semantic_score + (3/10) * md_score + (2/10) * temp_score + cboost

/-- `compute_hybrid_scores_for_candidates` from services.py: score every
candidate and stable-sort descending by the combined score. -/
def compute_hybrid_scores_for_candidates (pow2neg : ℚ → ℚ)
    (semantic_vec metadata_vec : Vec) (candidates : List IssueRec) (store : VectorStore)
    (msg_timestamp : ℚ) (msg_label : Option String) (now : ℚ) : List (IssueRec × ℚ) :=
  sortDescBy (·.2)
    (candidates.map (fun issue =>
      (issue, hybrid_score pow2neg store semantic_vec metadata_vec msg_timestamp msg_label now issue)))

/-! ### Centroid maintainer (services.py `update_issue_centroid`) -/

/-- `np.linspace a b num` (endpoint included; `[a]` when `num = 1`). -/
def np_linspace (a b : ℚ) (num : Nat) : List ℚ :=
  if num = 0 then []
  else if num = 1 then [a]
  else (List.range num).map (fun i => a + (b - a) * i / (num - 1))

def vscale (c : ℚ) (v : Vec) : Vec := v.map (c * ·)

def vadd (a b : Vec) : Vec := List.zipWith (· + ·) a b

/-- `np.average vs axis=0 weights=ws` : `(Σ wᵢ·vᵢ) / (Σ wᵢ)`. -/
def np_average (vs : List Vec) (ws : List ℚ) : Vec :=
  let weighted := List.zipWith vscale ws vs
  let total :=
    match weighted with
    | [] => []
    | v :: rest => rest.foldl vadd v
  vscale (1 / ws.sum) total

/-- The vector-collecting loop of `update_issue_centroid` (services.py lines
368-379): skip messages without an embedding, then skip messages below the
word-count floor. -/
def centroid_vectors : List MessageRec → List Vec
  | [] => []
  | msg :: rest =>
    match msg.embedding with
    | none => centroid_vectors rest
    | some vec =>
      if wordCount msg.text < MIN_WORDS_FOR_MEANINGFUL_MSG then centroid_vectors rest
      else vec :: centroid_vectors rest

/-- `update_issue_centroid` from services.py.  Note the `LIMIT` is applied
to the timestamp-ordered member messages before the word-count filter. -/
def update_issue_centroid (db : DB) (issue_id : Nat) : Option Vec :=
  let msgs := db.messagesForIssueAsc issue_id FIRST_N_MESSAGES_FOR_CENTROID
  let vectors := centroid_vectors msgs
  if vectors.isEmpty then none
  else some (_normalize (np_average vectors (np_linspace 1 (3/10) vectors.length)))

/-! ### Ingestion pipeline (`process_message` in services.py)

The system state threaded through a call: the module-level `_ts_cache`
(an insertion-ordered dict used as an LRU set), the relational store, and
the lazily created `_vector_store` singleton. -/

/-- Python truthiness of an optional integer id (`None` and `0` are falsy). -/
def pyTruthyId : Option Nat → Bool
  | none => false
  | some n => n ≠ 0

/-- The module-level `_ts_cache` dict, as its ordered key list. -/
abbrev TsCache := List String

/-- `_ts_cache[ts] = _ts_cache.pop(ts)`: move the key to the end. -/
def cacheMoveToEnd (c : TsCache) (ts : String) : TsCache := c.erase ts ++ [ts]

/-- services.py lines 454-457 / 638-641: evict the oldest key when at
capacity, then `_ts_cache[ts] = True` (a plain dict write: inserting an
existing key does not move it). -/
def cacheRecord (c : TsCache) (ts : String) : TsCache :=
  let c := if MAX_CACHE_SIZE ≤ c.length then c.drop 1 else c
  if c.contains ts then c else c ++ [ts]

/-- The fields of the Slack event dict that `process_message` reads. -/
structure SlackEvent where
  text : Option String
  user : Option String
  ts : Option String
  channel : Option String
  thread_ts : Option String
deriving DecidableEq, Repr

structure SysState where
  cache : TsCache
  db : DB
  store : Option VectorStore
deriving DecidableEq, Repr

/-- `get_vector_store`: return the singleton, lazily building it from the
database on first use. -/
def get_vector_store (env : Env) (st : SysState) : VectorStore × SysState :=
  match st.store with
  | some s => (s, st)
  | none =>
    let s := VectorStore.load_from_db env st.db
    (s, { st with store := some s })

/-- Ghost observer recording which branch of `process_message` decided the
outcome; it does not influence any computation. -/
inductive Route where
  | noTs | dupCache | dupDb | irrelevant
  | thread | followup | shortText | rerankAccept | rerankOracle | created
deriving DecidableEq, Repr

/-- The issue-resolution portion of `process_message` (services.py lines
471-582): thread lookup, follow-up check, ANN search, label filter,
short-text fallback, rerank, threshold gate and oracle confirmation.
Returns the chosen existing issue, or `none` when a new issue must be
created. -/
def decide_issue (env : Env) (db : DB) (store : VectorStore) (text ts : String)
    (thread_ts : Option String) (channel : Option String) (classification : ClassifyResult)
    (semantic_vec metadata_vec : Vec) (msg_timestamp : ℚ) : Option IssueRec × Route :=
  let threadIssue : Option IssueRec :=
    if pyFalsy thread_ts then none
    else
      match db.findMessageByTs (thread_ts.getD "") with
      | none => none
      | some parent =>
        if pyTruthyId parent.issue_id then db.getIssue (parent.issue_id.getD 0) else none
  match threadIssue with
  | some issue => (some issue, .thread)
  | none =>
    let followupIssue : Option IssueRec :=
      match db.mostRecentInChannel channel ts with
      | none => none
      | some prev =>
        if pyTruthyId prev.issue_id then
          if env.is_followup text msg_timestamp prev then db.getIssue (prev.issue_id.getD 0)
          else none
        else none
    match followupIssue with
    | some issue => (some issue, .followup)
    | none =>
      let ann_candidates := store.search env.pow2neg semantic_vec
        (max (1/100) (DEFAULT_SEARCH_THRESHOLD * (75/100))) (some msg_timestamp)
        DEFAULT_TEMPORAL_WEIGHT DEFAULT_TIME_DECAY_HOURS
        (if DEFAULT_TOP_K < ANN_FETCH_K then ANN_FETCH_K else DEFAULT_TOP_K) ANN_FETCH_K
      let candidate_issues := (ann_candidates.map (fun c => db.getIssue c.1)).reduceOption
      if candidate_issues.isEmpty then (none, .created)
      else
        let filtered := candidate_issues.filter (fun i => i.classification = classification.label)
        let candidate_issues :=
          if filtered.isEmpty then candidate_issues.take (max 3 candidate_issues.length)
          else filtered
        let shortIssue : Option IssueRec :=
          if wordCount text < SHORT_MSG_WORD_THRESHOLD then
            match env.select_issue text candidate_issues (some msg_timestamp) with
            | none => none
            | some sid => if sid ≠ 0 then db.getIssue sid else none
          else none
        match shortIssue with
        | some issue => (some issue, .shortText)
        | none =>
          let reranked := compute_hybrid_scores_for_candidates env.pow2neg semantic_vec
            metadata_vec candidate_issues store msg_timestamp classification.label env.now
          match reranked with
          | [] => (none, .created)
          | (best_issue, best_score) :: _ =>
            match threshold_gate DEFAULT_SEARCH_THRESHOLD best_score with
            | .accept => (some best_issue, .rerankAccept)
            | .confirm =>
              match env.select_issue text [best_issue] (some msg_timestamp) with
              | none => (none, .created)
              | some sid =>
                if sid ≠ 0 then
                  match db.getIssue sid with
                  | some issue => (some issue, .rerankOracle)
                  | none => (none, .created)
                else (none, .created)
            | .createNew => (none, .created)

structure ProcResult where
  result : Option MessageRec
  state : SysState
  route : Route
deriving DecidableEq, Repr

/-- The create-or-mutate step of `process_message` (services.py lines
584-602): when `decide_issue` resolved an existing issue via the thread
branch, reopen it if closed and refresh `updated_at` (committing the row);
when it resolved one any other way, use it as is; when it resolved none,
build and insert a new issue from the classification summary. -/
def resolve_issue_db (env : Env) (db : DB) (classification : ClassifyResult) (text : String)
    (found : Option IssueRec) (route : Route) : IssueRec × DB :=
  match found, route with
  | some i, .thread =>
    let i := if i.status = "closed" then { i with status := "open" } else i
    let i := { i with updated_at := env.now }
    (i, db.setIssue i)
  | some i, _ => (i, db)
  | none, _ =>
    let title :=
      if classification.summary = "" then
        text.take 80 ++ (if 80 < text.length then "..." else "")
      else classification.summary
    let newIssue : IssueRec :=
      { id := db.next_issue_id, title := title, summary := classification.summary,
        created_at := env.now, updated_at := env.now, status := "open",
        classification := classification.label, embedding := none }
    (newIssue,
      { db with
        issues := db.issues ++ [newIssue],
        next_issue_id := db.next_issue_id + 1 })

/-- The centroid/reindex step of `process_message` (services.py lines
626-636): recompute the centroid from the now-persisted member messages; if
one is produced, store it on the issue row, refresh `updated_at`, and upsert
it into the vector index; otherwise leave both untouched. -/
def reindex_step (env : Env) (store : VectorStore) (db : DB) (issue : IssueRec) :
    DB × VectorStore :=
  match update_issue_centroid db issue.id with
  | none => (db, store)
  | some c =>
    let issue2 := { issue with embedding := some c, updated_at := env.now }
    (db.setIssue issue2, store.add_issue issue.id c (some env.now) env.now)

/-- `process_message` from services.py: dedup check → classify → embed →
resolve issue (create / mutate) → persist → recompute centroid and reindex →
record in the dedup cache. -/
def process_message (env : Env) (st : SysState) (ev : SlackEvent) : ProcResult :=
  let text := pyStrip (ev.text.getD "")
  let ts := ev.ts.getD ""
  if ts = "" then ⟨none, st, .noTs⟩
  else if st.cache.contains ts then
    ⟨none, { st with cache := cacheMoveToEnd st.cache ts }, .dupCache⟩
  else if (st.db.findMessageByTs ts).isSome then
    ⟨none, { st with cache := cacheRecord st.cache ts }, .dupDb⟩
  else
    let classification := env.classify text
    if !classification.is_relevant then ⟨none, st, .irrelevant⟩
    else
      let semantic_vec := get_semantic_embedding env text
      let metadata_vec := get_metadata_embedding env text (ev.user.getD "") (ev.channel.getD "") ts
      let store := (get_vector_store env st).1
      let st1 := (get_vector_store env st).2
      let msg_timestamp := (env.parse_ts ts).getD env.now
      let dec := decide_issue env st1.db store text ts ev.thread_ts ev.channel
        classification semantic_vec metadata_vec msg_timestamp
      let issue := (resolve_issue_db env st1.db classification text dec.1 dec.2).1
      let db2 := (resolve_issue_db env st1.db classification text dec.1 dec.2).2
      let st2 := { st1 with db := db2 }
      if !env.persist_ok then ⟨none, st2, dec.2⟩
      else
        match env.parse_ts ts with
        | none => ⟨none, st2, dec.2⟩
        | some tstamp =>
          let msg : MessageRec :=
            { id := db2.next_message_id, slack_ts := ts, thread_ts := ev.thread_ts,
              channel_id := ev.channel, user_id := ev.user, text := text, timestamp := tstamp,
              classification := classification.label, confidence := classification.confidence,
              is_relevant := true, embedding := some semantic_vec, issue_id := some issue.id }
          let db3 :=
            { db2 with
              messages := db2.messages ++ [msg],
              next_message_id := db2.next_message_id + 1 }
          let db4 := (reindex_step env store db3 issue).1
          let store2 := (reindex_step env store db3 issue).2
          let st3 :=
            { st2 with
              db := db4,
              store := some store2,
              cache := cacheRecord st2.cache ts }
          ⟨some msg, st3, dec.2⟩

/-! ### Concrete instances

Small closed scenarios (2-dimensional embedding space, constant oracles)
used to witness or refute the claims on explicit inputs. -/

/-- Oracle environment for a plain successful ingestion: classification is
relevant, embeddings are the first basis vector, timestamps parse to `5`. -/
def C1env : Env :=
  { classify := fun _ => ⟨some "bug_report", true, 1, "login crash"⟩,
    encode := fun _ => [1, 0],
    is_followup := fun _ _ _ => false,
    select_issue := fun _ _ _ => none,
    pow2neg := fun _ => 1,
    parse_ts := fun s => if s = "5" then some 5 else none,
    now := 5,
    persist_ok := true }

/-- Empty database and empty 2-dimensional vector store. -/
def C1st : SysState :=
  { cache := [],
    db := { messages := [], issues := [], next_message_id := 1, next_issue_id := 1 },
    store := some { dim := 2, entries := [], issue_timestamps := [],
                    issue_metadata_embeddings := [] } }

def C1ev : SlackEvent :=
  { text := some "the login page crashes on submit", user := some "u1", ts := some "5",
    channel := some "c1", thread_ts := none }

/-- The message that the C1 scenario persists. -/
def C1msg : MessageRec :=
  { id := 1, slack_ts := "5", thread_ts := none, channel_id := some "c1",
    user_id := some "u1", text := "the login page crashes on submit", timestamp := 5,
    classification := some "bug_report", confidence := 1, is_relevant := true,
    embedding := some [1, 0], issue_id := some 1 }

/-- Modelled from the spec (§4.3): the classification term as the spec words
it — "+0.15 if labels match, -0.05 if they differ and both are non-empty,
0 if either is absent" — for refinement comparison with the source's
`classification_boost`, which only tests the issue label for absence. -/
def classification_boost_spec (msg_label issue_label : Option String) : ℚ :=
  if pyFalsy msg_label || pyFalsy issue_label then 0
  else if msg_label = issue_label then 15/100 else -(5/100)

/-- An event whose `ts` field is absent (C8 counterexample input). -/
def C8ev : SlackEvent :=
  { text := some "the login page crashes on submit", user := some "u1", ts := none,
    channel := some "c1", thread_ts := none }

/-- Stored parent message of the C2 thread scenario (assigned to issue 1). -/
def C2parent : MessageRec :=
  { id := 1, slack_ts := "1", thread_ts := none, channel_id := some "c1",
    user_id := some "u1", text := "the login page crashes on submit", timestamp := 1,
    classification := some "bug_report", confidence := 1, is_relevant := true,
    embedding := some [1, 0], issue_id := some 1 }

/-- Stored issue of the C2 thread scenario. -/
def C2issue : IssueRec :=
  { id := 1, title := "login crash", summary := "login crash", created_at := 1,
    updated_at := 1, status := "open", classification := some "bug_report",
    embedding := some [1, 0] }

/-- State holding one issue and one message, for the thread-override scenario. -/
def C2st : SysState :=
  { cache := [],
    db := { messages := [C2parent], issues := [C2issue],
            next_message_id := 2, next_issue_id := 2 },
    store := some { dim := 2, entries := [(1, [1, 0])], issue_timestamps := [(1, 1)],
                    issue_metadata_embeddings := [] } }

/-- A threaded reply to the stored parent message. -/
def C2ev : SlackEvent :=
  { text := some "it still crashes after a refresh", user := some "u2", ts := some "5",
    channel := some "c1", thread_ts := some "1" }

/-- A closed issue (C9 scenarios). -/
def C9issue : IssueRec :=
  { id := 1, title := "login crash", summary := "login crash", created_at := 1,
    updated_at := 1, status := "closed", classification := some "bug_report",
    embedding := some [1, 0] }

/-- State with one closed issue and its one message (C9 witness input). -/
def C9st : SysState :=
  { cache := [],
    db := { messages := [C2parent], issues := [C9issue],
            next_message_id := 2, next_issue_id := 2 },
    store := some { dim := 2, entries := [(1, [1, 0])], issue_timestamps := [(1, 1)],
                    issue_metadata_embeddings := [] } }

/-- The message the C9 witness run persists (thread reply, issue reopened). -/
def C9msg : MessageRec :=
  { id := 2, slack_ts := "5", thread_ts := some "1", channel_id := some "c1",
    user_id := some "u2", text := "it still crashes after a refresh", timestamp := 5,
    classification := some "bug_report", confidence := 1, is_relevant := true,
    embedding := some [1, 0], issue_id := some 1 }

/-- State with one closed, message-less issue indexed at `[1,0]`
(C9 counterexample input). -/
def C9cexSt : SysState :=
  { cache := [],
    db := { messages := [], issues := [C9issue],
            next_message_id := 1, next_issue_id := 2 },
    store := some { dim := 2, entries := [(1, [1, 0])], issue_timestamps := [(1, 5)],
                    issue_metadata_embeddings := [] } }

/-- A non-threaded message semantically identical to the closed issue's
centroid (C9 counterexample input): it is assigned by the rerank branch. -/
def C9cexEv : SlackEvent :=
  { text := some "the login page crashes on submit now", user := some "u3",
    ts := some "5", channel := some "c1", thread_ts := none }

/-- The message the C9 counterexample run persists. -/
def C9cexMsg : MessageRec :=
  { id := 1, slack_ts := "5", thread_ts := none, channel_id := some "c1",
    user_id := some "u3", text := "the login page crashes on submit now", timestamp := 5,
    classification := some "bug_report", confidence := 1, is_relevant := true,
    embedding := some [1, 0], issue_id := some 1 }

/-- A four-entry index over unit vectors (C5 counterexample input). -/
def C5store : VectorStore :=
  { dim := 2,
    entries := [(1, [1, 0]), (2, [0, 1]), (3, [3/5, 4/5]), (4, [4/5, 3/5])],
    issue_timestamps := [], issue_metadata_embeddings := [] }

/-- Modelled from the spec (§4.6): the centroid computed from "the first N
messages that independently pass a minimum-word-count filter" — the filter
applied before the LIMIT — for refinement comparison with the source's
`update_issue_centroid`, whose SQL `LIMIT` runs before the Python-side
filter. -/
def update_issue_centroid_spec (db : DB) (issue_id : Nat) : Option Vec :=
  let msgs := sortAscBy (fun m => m.timestamp)
    (db.messages.filter (fun m => m.issue_id = some issue_id))
  let vectors := (centroid_vectors msgs).take FIRST_N_MESSAGES_FOR_CENTROID
  if vectors.isEmpty then none
  else some (_normalize (np_average vectors (np_linspace 1 (3/10) vectors.length)))

/-- For the C7 counterexample: the i-th message of issue 1. -/
def C7msg (i : Nat) (txt : String) (emb : Vec) : MessageRec :=
  { id := i, slack_ts := "x", thread_ts := none, channel_id := some "c1",
    user_id := some "u1", text := txt, timestamp := i, classification := some "bug_report",
    confidence := 1, is_relevant := true, embedding := some emb, issue_id := some 1 }

/-- Six messages of issue 1: the earliest is a 2-word message that fails the
word-count filter, the next four are 5-word messages embedded at `[1,0]`,
and the sixth is a 5-word message embedded at `[0,1]`.  The code takes the
first five by timestamp and then filters (keeping four `[1,0]` vectors);
the spec's reading would keep five vectors including the `[0,1]`. -/
def C7db : DB :=
  { messages :=
      [ C7msg 1 "hi there" [0, 1],
        C7msg 2 "the login page crashes now" [1, 0],
        C7msg 3 "the login page crashes again" [1, 0],
        C7msg 4 "the login page crashes still" [1, 0],
        C7msg 5 "the login page crashes often" [1, 0],
        C7msg 6 "the export button is missing" [0, 1] ],
    issues := [], next_message_id := 7, next_issue_id := 2 }

/-- An empty two-dimensional index (C6 counterexample input). -/
def C6store : VectorStore :=
  { dim := 2, entries := [], issue_timestamps := [], issue_metadata_embeddings := [] }

/-! ## Theorems -/

theorem rat_sqrt_one : Rat.sqrt 1 = 1 := by
  have := Rat.sqrt_eq (1 : ℚ)
  simpa using this

theorem rat_sqrt_zero : Rat.sqrt 0 = 0 := by
  have := Rat.sqrt_eq (0 : ℚ)
  simpa using this

/-! ### Helper lemmas -/

theorem sortDescBy_perm {α : Type _} (f : α → ℚ) (l : List α) :
    List.Perm (sortDescBy f l) l :=
  List.perm_insertionSort _ l

theorem sortDescBy_mem {α : Type _} {f : α → ℚ} {l : List α} {x : α} :
    x ∈ sortDescBy f l ↔ x ∈ l :=
  (sortDescBy_perm f l).mem_iff

theorem sortDescBy_length {α : Type _} (f : α → ℚ) (l : List α) :
    (sortDescBy f l).length = l.length :=
  (sortDescBy_perm f l).length_eq

theorem sortDescBy_sorted {α : Type _} (f : α → ℚ) (l : List α) :
    (sortDescBy f l).Pairwise (fun a b => f b ≤ f a) := by
  haveI : IsTotal α (fun a b => f b ≤ f a) := ⟨fun a b => le_total (f b) (f a)⟩
  haveI : IsTrans α (fun a b => f b ≤ f a) := ⟨fun a b c h1 h2 => le_trans h2 h1⟩
  exact List.sorted_insertionSort _ l

theorem find?_map_set_self {α : Type _} (d : List (Nat × α)) (k : Nat) (v : α)
    (hd : d.any (fun p => p.1 = k) = true) :
    (d.map (fun p => if p.1 = k then (k, v) else p)).find? (fun p => p.1 = k) = some (k, v) := by
  induction d with
  | nil => simp at hd
  | cons p t ih =>
    by_cases hp : p.1 = k
    · rw [List.map_cons, if_pos hp, List.find?_cons_of_pos _ (by simp)]
    · simp only [List.any_cons, Bool.or_eq_true, decide_eq_true_eq] at hd
      rcases hd with hd | hd
      · exact absurd hd hp
      · rw [List.map_cons, if_neg hp, List.find?_cons_of_neg _ (by simpa using hp)]
        exact ih (by simpa using hd)

theorem find?_map_set_ne {α : Type _} (d : List (Nat × α)) (k k' : Nat) (v : α)
    (h : ¬ k = k') :
    (d.map (fun p => if p.1 = k' then (k', v) else p)).find? (fun p => p.1 = k) =
      d.find? (fun p => p.1 = k) := by
  have hk'k : ¬ (k' = k) := Ne.symm h
  induction d with
  | nil => simp
  | cons p t ih =>
    by_cases hp : p.1 = k'
    · have hpk : ¬ p.1 = k := hp ▸ hk'k
      rw [List.map_cons, if_pos hp, List.find?_cons_of_neg _ (by simpa using hk'k),
        List.find?_cons_of_neg _ (by simpa using hpk)]
      exact ih
    · by_cases hpk : p.1 = k
      · rw [List.map_cons, if_neg hp, List.find?_cons_of_pos _ (by simpa using hpk),
          List.find?_cons_of_pos _ (by simpa using hpk)]
      · rw [List.map_cons, if_neg hp, List.find?_cons_of_neg _ (by simpa using hpk),
          List.find?_cons_of_neg _ (by simpa using hpk)]
        exact ih

theorem dictGet_dictSet_self {α : Type _} (d : List (Nat × α)) (k : Nat) (v : α) :
    dictGet (dictSet d k v) k = some v := by
  unfold dictSet dictGet
  by_cases hd : d.any (fun p => p.1 = k) = true
  · rw [if_pos hd, find?_map_set_self d k v hd]
    simp
  · rw [if_neg hd, List.find?_append]
    have hnone : d.find? (fun p => decide (p.1 = k)) = none := by
      rw [List.find?_eq_none]
      intro x hx hxk
      simp only [decide_eq_true_eq] at hxk
      exact hd (by rw [List.any_eq_true]; exact ⟨x, hx, by simp [hxk]⟩)
    simp [hnone]

theorem dictGet_dictSet_ne {α : Type _} (d : List (Nat × α)) (k k' : Nat) (v : α)
    (h : ¬ k = k') : dictGet (dictSet d k' v) k = dictGet d k := by
  unfold dictSet dictGet
  by_cases hd : d.any (fun p => p.1 = k') = true
  · rw [if_pos hd, find?_map_set_ne d k k' v h]
  · rw [if_neg hd, List.find?_append]
    cases hfd : d.find? (fun p => decide (p.1 = k)) <;>
      simp [hfd, Ne.symm h]

theorem cacheRecord_contains (c : TsCache) (ts : String) :
    (cacheRecord c ts).contains ts = true := by
  unfold cacheRecord
  by_cases h : (if MAX_CACHE_SIZE ≤ c.length then c.drop 1 else c).contains ts
  · simp only [h, if_pos]
  · simp only [h, if_neg, Bool.false_eq_true, not_false_iff]
    simp [List.contains, List.elem_iff]

theorem getIssue_id {db : DB} {iid : Nat} {i : IssueRec} (h : db.getIssue iid = some i) :
    i.id = iid := by
  have := List.find?_some h
  simpa using this

theorem getIssue_mem {db : DB} {iid : Nat} {i : IssueRec} (h : db.getIssue iid = some i) :
    i ∈ db.issues :=
  List.mem_of_find?_eq_some h

theorem find?_id_map_set {l : List IssueRec} {i j : IssueRec}
    (h : l.find? (fun x => x.id = i.id) = some j) :
    (l.map (fun x => if x.id = i.id then i else x)).find? (fun x => x.id = i.id) = some i := by
  induction l with
  | nil => simp at h
  | cons a t ih =>
    by_cases ha : a.id = i.id
    · rw [List.map_cons, if_pos ha, List.find?_cons_of_pos _ (by simp)]
    · rw [List.find?_cons_of_neg _ (by simpa using ha)] at h
      rw [List.map_cons, if_neg ha, List.find?_cons_of_neg _ (by simpa using ha)]
      exact ih h

theorem getIssue_setIssue (db : DB) (i : IssueRec) {j : IssueRec}
    (h : db.getIssue i.id = some j) : (db.setIssue i).getIssue i.id = some i :=
  find?_id_map_set h

theorem get_vector_store_snd (env : Env) (st : SysState) :
    (get_vector_store env st).2.cache = st.cache ∧ (get_vector_store env st).2.db = st.db := by
  unfold get_vector_store
  rcases hs : st.store with _ | s <;> simp

/-- Every run of the pipeline either returns `None`, or ran to the end:
the event carried a non-empty `ts` and the final cache records it. -/
theorem process_result_cases (env : Env) (st : SysState) (ev : SlackEvent) :
    (process_message env st ev).result = none ∨
    (ev.ts.getD "" ≠ "" ∧
     (process_message env st ev).state.cache = cacheRecord st.cache (ev.ts.getD "")) := by
  have hc := (get_vector_store_snd env st).1
  simp only [process_message]
  split <;> rename_i h1
  · exact Or.inl rfl
  split <;> rename_i h2
  · exact Or.inl rfl
  split <;> rename_i h3
  · exact Or.inl rfl
  split <;> rename_i h4
  · exact Or.inl rfl
  split <;> rename_i h5
  · exact Or.inl rfl
  split <;> rename_i h6
  · exact Or.inl rfl
  · exact Or.inr ⟨h1, by simp [hc]⟩

/-- C1: idempotence under redelivery.  If ingesting an event returned a
non-null Message, immediately ingesting the same event again (same
`slack_ts`) returns null and leaves the database — its Messages and Issues —
untouched; the duplicate is absorbed by the in-memory recency cache (the
database lookup on the unique external id backs it up but is not reached).
Quantified over every oracle environment, starting state and event. -/
theorem C1_idempotence_under_redelivery (env : Env) (st : SysState) (ev : SlackEvent)
    (m : MessageRec) (h : (process_message env st ev).result = some m) :
    (process_message env (process_message env st ev).state ev).result = none ∧
    (process_message env (process_message env st ev).state ev).state.db =
      (process_message env st ev).state.db := by
  rcases process_result_cases env st ev with hn | ⟨hts, hcache⟩
  · rw [hn] at h
    exact absurd h (by simp)
  · have hcontains : (process_message env st ev).state.cache.contains (ev.ts.getD "") = true := by
      rw [hcache]
      exact cacheRecord_contains _ _
    set st' := (process_message env st ev).state with hst'
    have hmem : ev.ts.getD "" ∈ st'.cache := by
      have := hcontains
      simpa [List.contains, List.elem_iff] using this
    constructor
    · simp [process_message, hts, hmem]
    · simp [process_message, hts, hmem]

/-- Witness for C1: a concrete successful first ingestion. -/
theorem C1_idempotence_under_redelivery_witness :
    (process_message C1env C1st C1ev).result = some C1msg ∧
    ((process_message C1env (process_message C1env C1st C1ev).state C1ev).result = none ∧
     (process_message C1env (process_message C1env C1st C1ev).state C1ev).state.db =
       (process_message C1env C1st C1ev).state.db) :=
  have h : (process_message C1env C1st C1ev).result = some C1msg := by
    norm_num +decide [process_message, decide_issue, resolve_issue_db, reindex_step,
      get_vector_store, C1env, C1st, C1ev, C1msg, pyStrip, pyFalsy, pyTruthyId, wordCount,
      wordCountAux, get_semantic_embedding, get_metadata_embedding, _normalize, norm_sq, dot,
      DB.findMessageByTs, DB.getIssue, DB.setIssue, DB.mostRecentInChannel,
      DB.messagesForIssueAsc, VectorStore.search, VectorStore.mdGet, ann_combine,
      VectorStore.add_issue, update_issue_centroid, centroid_vectors, np_average, np_linspace,
      vscale, vadd, sortAscBy, sortDescBy, dictGet, dictSet,
      compute_hybrid_scores_for_candidates, hybrid_score, cosine_sim, temporal_decay_score,
      classification_boost, threshold_gate, cacheRecord, cacheMoveToEnd, List.insertionSort,
      List.orderedInsert, rat_sqrt_one, rat_sqrt_zero, DEFAULT_SEARCH_THRESHOLD,
      DEFAULT_TEMPORAL_WEIGHT, DEFAULT_TIME_DECAY_HOURS, DEFAULT_TOP_K, MAX_CACHE_SIZE,
      FIRST_N_MESSAGES_FOR_CENTROID, MIN_WORDS_FOR_MEANINGFUL_MSG, SHORT_MSG_WORD_THRESHOLD,
      ANN_FETCH_K, EMBEDDING_DIM]
  ⟨h, C1_idempotence_under_redelivery C1env C1st C1ev C1msg h⟩

/-- C2: thread override.  For every oracle environment (hence regardless of
any similarity score, even 0), a relevant, non-duplicate message whose
`thread_ts` names a stored message with an assigned, existing issue resolves
through the thread branch (`route = .thread`, so the follow-up check, ANN
search, rerank, threshold gate and oracle confirmation are never reached)
and the persisted message lands in that parent's issue. -/
theorem C2_thread_override (env : Env) (st : SysState) (ev : SlackEvent)
    (ts ptts : String) (parent : MessageRec) (pid : Nat) (parentIssue : IssueRec) (q : ℚ)
    (hts : ev.ts = some ts) (htsne : ts ≠ "")
    (hcache : st.cache.contains ts = false)
    (hdb : st.db.findMessageByTs ts = none)
    (hrel : (env.classify (pyStrip (ev.text.getD ""))).is_relevant = true)
    (hth : ev.thread_ts = some ptts) (hpne : ptts ≠ "")
    (hparent : st.db.findMessageByTs ptts = some parent)
    (hpid : parent.issue_id = some pid) (hpid0 : pid ≠ 0)
    (hpi : st.db.getIssue pid = some parentIssue)
    (hok : env.persist_ok = true) (hparse : env.parse_ts ts = some q) :
    (process_message env st ev).route = .thread ∧
    ∃ m, (process_message env st ev).result = some m ∧ m.issue_id = some pid := by
  have hdb1 := (get_vector_store_snd env st).2
  have hmem : ts ∉ st.cache := by
    simpa [List.contains, List.elem_iff] using hcache
  have hpidid : parentIssue.id = pid := getIssue_id hpi
  have hdec : ∀ store sv mv mt,
      decide_issue env st.db store (pyStrip (ev.text.getD "")) ts ev.thread_ts ev.channel
        (env.classify (pyStrip (ev.text.getD ""))) sv mv mt = (some parentIssue, .thread) := by
    intro store sv mv mt
    simp [decide_issue, hth, pyFalsy, hpne, hparent, hpid, pyTruthyId, hpid0, hpi]
  constructor
  · simp [process_message, hts, htsne, hmem, hdb, hrel, hdb1, hdec, hok, hparse]
  · by_cases hcl : parentIssue.status = "closed" <;>
      simp [process_message, hts, htsne, hmem, hdb, hrel, hdb1, hdec, hok, hparse,
        resolve_issue_db, hcl, hpidid]

/-- Witness for C2: a concrete threaded reply to a stored message of issue 1. -/
theorem C2_thread_override_witness :
    (process_message C1env C2st C2ev).route = .thread ∧
    ∃ m, (process_message C1env C2st C2ev).result = some m ∧ m.issue_id = some 1 :=
  C2_thread_override C1env C2st C2ev "5" "1" C2parent 1 C2issue 5
    rfl (by decide) (by decide)
    (by norm_num +decide [DB.findMessageByTs, C2st, C2parent])
    (by norm_num +decide [C1env])
    rfl (by decide)
    (by norm_num +decide [DB.findMessageByTs, C2st, C2parent, C2issue])
    (by norm_num +decide [C2parent]) (by decide)
    (by norm_num +decide [DB.getIssue, C2st, C2parent, C2issue])
    rfl (by norm_num +decide [C1env])

/-- C8 (amended): ingest return contract.  `process_message` returns null
exactly when the event lacks a non-empty `ts` (external id), is a duplicate
(recency cache or database lookup on the unique external id), is classified
irrelevant, or fails to persist (the INSERT transaction fails or the
external id does not parse as a float inside the persist block); on every
other input it returns the persisted Message. -/
theorem C8_ingest_null_characterization (env : Env) (st : SysState) (ev : SlackEvent) :
    (process_message env st ev).result = none ↔
      (ev.ts.getD "" = "" ∨
       st.cache.contains (ev.ts.getD "") = true ∨
       (st.db.findMessageByTs (ev.ts.getD "")).isSome = true ∨
       (env.classify (pyStrip (ev.text.getD ""))).is_relevant = false ∨
       env.persist_ok = false ∨
       env.parse_ts (ev.ts.getD "") = none) := by
  simp only [process_message]
  split <;> rename_i h1
  · simp [h1]
  split <;> rename_i h2
  · have hmem : ev.ts.getD "" ∈ st.cache := by
      simpa [List.contains, List.elem_iff] using h2
    simp [hmem]
  split <;> rename_i h3
  · simp [h3]
  split <;> rename_i h4
  · simp at h4
    simp [h4]
  split <;> rename_i h5
  · simp at h5
    simp [h5]
  split <;> rename_i h6
  · simp [h6]
  · have hmem : ev.ts.getD "" ∉ st.cache := by
      simpa [List.contains, List.elem_iff] using h2
    simp at h4 h5
    simp [h1, hmem, h3, h4, h5, h6]

/-- Counterexample for C8 as stated: an event carrying no `ts` is not a
duplicate (empty cache and database), is classified relevant, and the
persist transaction would succeed, yet ingest returns null — a fourth
null case the claim does not list. -/
theorem C8_missing_ts_counterexample :
    (process_message C1env C1st C8ev).result = none ∧
    C1st.cache = [] ∧ C1st.db.messages = [] ∧ C1st.db.issues = [] ∧
    (C1env.classify (pyStrip (C8ev.text.getD ""))).is_relevant = true ∧
    C1env.persist_ok = true := by
  refine ⟨?_, rfl, rfl, rfl, rfl, rfl⟩
  simp [process_message, C8ev]

/-- Counterexample for C4 as stated: with the message label absent and the
issue label `"bug_report"`, the code's boost is `-0.05`, not the `0` the
claim's "0 when either is absent" clause demands. -/
theorem C4_boost_counterexample :
    classification_boost none (some "bug_report") = -(5/100) ∧
    classification_boost_spec none (some "bug_report") = 0 ∧
    classification_boost none (some "bug_report") ≠
      classification_boost_spec none (some "bug_report") := by
  refine ⟨?_, ?_, ?_⟩ <;>
    norm_num +decide [classification_boost, classification_boost_spec, pyFalsy]

/-- C4 (amended): hybrid scorer.  Every candidate's combined score equals
`0.3·cos(semanticVec, centroid) + 0.3·cos(metadataVec, issueMetadataVec) +
0.2·temporalDecay + boost`, where a missing centroid falls back to the
issue's cached metadata vector (and to `0` when that is also missing), and
the boost is the source's `classification_boost` — `+0.15` on matching
labels, `-0.05` whenever the issue label is non-empty and differs (including
when the message label is absent), `0` only when the issue label is absent;
the list is stably sorted descending by combined score and is a permutation
of the candidate set. -/
theorem C4_hybrid_scorer_amended (pow2neg : ℚ → ℚ) (semantic_vec metadata_vec : Vec)
    (candidates : List IssueRec) (store : VectorStore) (msg_timestamp : ℚ)
    (msg_label : Option String) (now : ℚ) :
    (∀ p ∈ compute_hybrid_scores_for_candidates pow2neg semantic_vec metadata_vec candidates
        store msg_timestamp msg_label now,
      p.1 ∈ candidates ∧
      p.2 = (3/10) * (match p.1.embedding, store.mdGet p.1.id with
              | some c, _ => cosine_sim (some semantic_vec) (some (_normalize c))
              | none, some md => cosine_sim (some semantic_vec) (some md)
              | none, none => 0)
          + (3/10) * (match store.mdGet p.1.id with
              | some md => cosine_sim (some metadata_vec) (some md)
              | none => 0)
          + (2/10) * temporal_decay_score pow2neg msg_timestamp
              ((dictGet store.issue_timestamps p.1.id).getD now) DEFAULT_TIME_DECAY_HOURS
          + classification_boost msg_label p.1.classification) ∧
    (compute_hybrid_scores_for_candidates pow2neg semantic_vec metadata_vec candidates
        store msg_timestamp msg_label now).Pairwise (fun a b => b.2 ≤ a.2) ∧
    List.Perm ((compute_hybrid_scores_for_candidates pow2neg semantic_vec metadata_vec
        candidates store msg_timestamp msg_label now).map Prod.fst) candidates := by
  refine ⟨?_, ?_, ?_⟩
  · intro p hp
    simp only [compute_hybrid_scores_for_candidates] at hp
    rw [sortDescBy_mem] at hp
    rcases List.mem_map.mp hp with ⟨issue, hiss, rfl⟩
    refine ⟨hiss, ?_⟩
    simp only [hybrid_score]
    cases hemb : issue.embedding <;> cases hmd : store.mdGet issue.id <;>
      simp [hemb, hmd]
  · exact sortDescBy_sorted _ _
  · have h := (sortDescBy_perm (fun p : IssueRec × ℚ => p.2)
      (candidates.map (fun issue =>
        (issue, hybrid_score pow2neg store semantic_vec metadata_vec msg_timestamp msg_label
          now issue)))).map Prod.fst
    simp only [compute_hybrid_scores_for_candidates]
    simpa [List.map_map, Function.comp_def, List.map_id'] using h

/-- Counterexample for C5 as stated: with four stored entries, `fetch_k = 4`
and the default `top_k = 3`, four candidates are fetched but only three are
returned — the search truncates to `top_k`, so not every fetched candidate
reaches the caller. -/
theorem C5_truncation_counterexample :
    C5store.entries.length = 4 ∧
    min 4 C5store.entries.length = 4 ∧
    (C5store.search (fun _ => 1) [4/5, 3/5] DEFAULT_SEARCH_THRESHOLD none
        DEFAULT_TEMPORAL_WEIGHT DEFAULT_TIME_DECAY_HOURS DEFAULT_TOP_K 4).length = 3 := by
  refine ⟨rfl, rfl, ?_⟩
  norm_num +decide [VectorStore.search, C5store, sortDescBy, ann_combine, _normalize,
    norm_sq, dot, VectorStore.mdGet, dictGet, List.insertionSort, List.orderedInsert,
    rat_sqrt_one, DEFAULT_TOP_K, DEFAULT_SEARCH_THRESHOLD, DEFAULT_TEMPORAL_WEIGHT,
    DEFAULT_TIME_DECAY_HOURS]

/-- C5 (amended): vector index search contract.  `search` returns at most
`min(top_k, fetch_k, ntotal)` entries (the final truncation is to `top_k`,
default 3 — not every fetched candidate is returned); it returns the empty
list when the index is empty; each returned pair carries the combined score
`ann_combine` of the raw inner product of the stored vector with the
normalized query (blended with the cached metadata similarity and the
temporal decay when those are available); the list is sorted descending by
that combined score; and no score threshold is applied — the `threshold`
argument does not affect the result at all. -/
theorem C5_search_contract_amended (store : VectorStore) (pow2neg : ℚ → ℚ)
    (embedding : Vec) (thr thr' : ℚ) (qts : Option ℚ) (w hl : ℚ) (top_k fetch_k : Nat) :
    (store.entries = [] → store.search pow2neg embedding thr qts w hl top_k fetch_k = []) ∧
    (store.search pow2neg embedding thr qts w hl top_k fetch_k).length
        = min top_k (min fetch_k store.entries.length) ∧
    (store.search pow2neg embedding thr qts w hl top_k fetch_k).Pairwise
        (fun a b => b.2 ≤ a.2) ∧
    store.search pow2neg embedding thr qts w hl top_k fetch_k
        = store.search pow2neg embedding thr' qts w hl top_k fetch_k ∧
    (∀ p ∈ store.search pow2neg embedding thr qts w hl top_k fetch_k,
      ∃ raw, (p.1, raw) ∈ store.entries.map
          (fun e => (e.1, dot (_normalize embedding) e.2)) ∧
        p.2 = ann_combine store pow2neg qts w hl (_normalize embedding) p.1 raw) := by
  refine ⟨?_, ?_, ?_, rfl, ?_⟩
  · intro h
    simp [VectorStore.search, h]
  · by_cases h : store.entries.length = 0
    · simp [VectorStore.search, h]
    · simp only [VectorStore.search]
      rw [if_neg h]
      simp only [List.length_take, List.length_map, sortDescBy_length]
      omega
  · by_cases h : store.entries.length = 0
    · simp [VectorStore.search, h]
    · simp only [VectorStore.search]
      rw [if_neg h]
      exact List.Pairwise.sublist (List.take_sublist _ _) (sortDescBy_sorted _ _)
  · intro p hp
    by_cases h : store.entries.length = 0
    · simp [VectorStore.search, h] at hp
    · simp only [VectorStore.search] at hp
      rw [if_neg h] at hp
      have hp2 := sortDescBy_mem.mp (List.mem_of_mem_take hp)
      rcases List.mem_map.mp hp2 with ⟨c, hc, rfl⟩
      have hc2 := sortDescBy_mem.mp (List.mem_of_mem_take hc)
      exact ⟨c.2, hc2, rfl⟩

/-- Counterexample for C6 as stated: the zero vector of the right dimension
has zero norm, yet `add_issue` does not reject it — `_normalize` returns it
unchanged, and the index is mutated (an entry is inserted). -/
theorem C6_zero_norm_counterexample :
    norm_sq [(0:ℚ), 0] = 0 ∧
    C6store.entries = [] ∧
    (C6store.add_issue 7 [0, 0] none 5).entries = [(7, [0, 0])] := by
  refine ⟨?_, rfl, ?_⟩ <;>
    norm_num +decide [VectorStore.add_issue, C6store, _normalize, norm_sq, dot,
      dictSet, rat_sqrt_zero, EMBEDDING_DIM]

/-- C6 (amended): vector index upsert.  `add_issue` normalizes the vector
and atomically replaces any existing entry for the issue id, so the index —
if it had no duplicate ids — still has none, and holds exactly one entry for
that id, with the given timestamp recorded and the cached metadata embedding
reset; a vector of the wrong dimensionality is rejected without mutating the
index in any way.  Zero-norm (and NaN-norm) vectors are NOT rejected:
`_normalize` passes them through unchanged and they are inserted as-is. -/
theorem C6_upsert_amended (store : VectorStore) (issue_id : Nat) (v : Vec)
    (t : Option ℚ) (now : ℚ) (hnodup : (store.entries.map Prod.fst).Nodup) :
    ((_normalize v).length ≠ store.dim → store.add_issue issue_id v t now = store) ∧
    ((_normalize v).length = store.dim →
      (store.add_issue issue_id v t now).entries
          = store.entries.filter (fun p => p.1 ≠ issue_id) ++ [(issue_id, _normalize v)] ∧
      ((store.add_issue issue_id v t now).entries.map Prod.fst).Nodup ∧
      ((store.add_issue issue_id v t now).entries.filter (fun p => p.1 = issue_id))
          = [(issue_id, _normalize v)] ∧
      dictGet (store.add_issue issue_id v t now).issue_timestamps issue_id
          = some (t.getD now) ∧
      (store.add_issue issue_id v t now).mdGet issue_id = none) := by
  constructor
  · intro h
    simp [VectorStore.add_issue, h]
  · intro h
    have hentries : (store.add_issue issue_id v t now).entries
        = store.entries.filter (fun p => p.1 ≠ issue_id) ++ [(issue_id, _normalize v)] := by
      simp [VectorStore.add_issue, h]
    have hts : (store.add_issue issue_id v t now).issue_timestamps
        = dictSet store.issue_timestamps issue_id (t.getD now) := by
      simp [VectorStore.add_issue, h]
    have hmd : (store.add_issue issue_id v t now).issue_metadata_embeddings
        = dictSet store.issue_metadata_embeddings issue_id none := by
      simp [VectorStore.add_issue, h]
    have hnotin : issue_id ∉
        (store.entries.filter (fun p => p.1 ≠ issue_id)).map Prod.fst := by
      intro hmem
      rcases List.mem_map.mp hmem with ⟨p, hp, hpe⟩
      have := List.of_mem_filter hp
      simp only [decide_eq_true_eq] at this
      exact this (by simpa using hpe)
    refine ⟨hentries, ?_, ?_, ?_, ?_⟩
    · rw [hentries, List.map_append]
      rw [List.nodup_append]
      refine ⟨?_, by simp, ?_⟩
      · exact hnodup.sublist ((List.filter_sublist _).map Prod.fst)
      · intro a ha hb
        simp only [List.map_cons, List.map_nil, List.mem_singleton] at hb
        subst hb
        exact hnotin ha
    · rw [hentries, List.filter_append]
      have h1 : (store.entries.filter (fun p => p.1 ≠ issue_id)).filter
          (fun p => p.1 = issue_id) = [] := by
        rw [List.filter_eq_nil_iff]
        intro p hp
        have := List.of_mem_filter hp
        simp only [decide_eq_true_eq] at this ⊢
        exact this
      rw [h1]
      simp
    · rw [hts]
      exact dictGet_dictSet_self _ _ _
    · unfold VectorStore.mdGet
      rw [hmd, dictGet_dictSet_self]
      rfl

/-- Witness for C6 on the concrete empty two-dimensional store and the unit
vector `[1, 0]`. -/
theorem C6_upsert_amended_witness :
    ((_normalize [1, 0]).length ≠ C6store.dim →
      C6store.add_issue 9 [1, 0] (some 3) 5 = C6store) ∧
    ((_normalize [1, 0]).length = C6store.dim →
      (C6store.add_issue 9 [1, 0] (some 3) 5).entries
          = C6store.entries.filter (fun p => p.1 ≠ 9) ++ [(9, _normalize [1, 0])] ∧
      ((C6store.add_issue 9 [1, 0] (some 3) 5).entries.map Prod.fst).Nodup ∧
      ((C6store.add_issue 9 [1, 0] (some 3) 5).entries.filter (fun p => p.1 = 9))
          = [(9, _normalize [1, 0])] ∧
      dictGet (C6store.add_issue 9 [1, 0] (some 3) 5).issue_timestamps 9
          = some ((some (3:ℚ)).getD 5) ∧
      (C6store.add_issue 9 [1, 0] (some 3) 5).mdGet 9 = none) :=
  C6_upsert_amended C6store 9 [1, 0] (some 3) 5 (by decide)

theorem centroid_vectors_eq_filterMap (l : List MessageRec) :
    centroid_vectors l = l.filterMap (fun m =>
      match m.embedding with
      | none => none
      | some v =>
        if wordCount m.text < MIN_WORDS_FOR_MEANINGFUL_MSG then none else some v) := by
  induction l with
  | nil => rfl
  | cons m t ih =>
    cases hm : m.embedding
    · simp [centroid_vectors, List.filterMap_cons, hm, ih]
    · by_cases hw : wordCount m.text < MIN_WORDS_FOR_MEANINGFUL_MSG <;>
        simp [centroid_vectors, List.filterMap_cons, hm, hw, ih]

theorem np_linspace_two : np_linspace 1 (3/10) 2 = [1, 3/10] := by
  have h : List.range 2 = [0, 1] := rfl
  norm_num [np_linspace, h]

theorem np_linspace_four : np_linspace 1 (3/10) 4 = [1, 23/30, 8/15, 3/10] := by
  have h : List.range 4 = [0, 1, 2, 3] := rfl
  norm_num [np_linspace, h]

theorem np_linspace_five : np_linspace 1 (3/10) 5 = [1, 33/40, 13/20, 19/40, 3/10] := by
  have h : List.range 5 = [0, 1, 2, 3, 4] := rfl
  norm_num [np_linspace, h]

/-- A two-component vector whose second component is nonzero never
normalizes to `[1, 0]` (division cannot create a zero). -/
theorem normalize_pair_ne (a b : ℚ) (hb : b ≠ 0) : _normalize [a, b] ≠ [1, 0] := by
  intro h
  simp only [_normalize] at h
  split at h <;> rename_i hn
  · exact hb (by simpa using congrArg (fun l => l.getD 1 0) h)
  · have h2 : b / Rat.sqrt (norm_sq [a, b]) = 0 := by
      simpa using congrArg (fun l => l.getD 1 0) h
    rcases div_eq_zero_iff.mp h2 with hc | hc
    · exact hb hc
    · exact hn hc

/-- Counterexample for C7 as stated: on `C7db` the code's centroid uses only
the qualifying messages among the FIRST five by timestamp (four `[1,0]`
vectors — message 1 is dropped by the word filter and message 6 is cut by
the LIMIT), yielding exactly `[1, 0]`; restricting instead to the first five
messages PASSING the filter (the claim's reading, messages 2-6) yields a
centroid with a nonzero second component. -/
theorem C7_limit_before_filter_counterexample :
    update_issue_centroid C7db 1 = some [1, 0] ∧
    update_issue_centroid_spec C7db 1 ≠ some [1, 0] := by
  constructor
  · norm_num +decide [update_issue_centroid, C7db, C7msg, DB.messagesForIssueAsc, sortAscBy,
      centroid_vectors, wordCount, wordCountAux, np_average, np_linspace_four, vscale, vadd,
      _normalize, norm_sq, dot, rat_sqrt_one, FIRST_N_MESSAGES_FOR_CENTROID,
      MIN_WORDS_FOR_MEANINGFUL_MSG, List.insertionSort, List.orderedInsert]
  · have heval : update_issue_centroid_spec C7db 1 = some (_normalize [59/65, 6/65]) := by
      norm_num +decide [update_issue_centroid_spec, C7db, C7msg, sortAscBy,
        centroid_vectors, wordCount, wordCountAux, np_average, np_linspace_five, vscale, vadd,
        norm_sq, dot, FIRST_N_MESSAGES_FOR_CENTROID, MIN_WORDS_FOR_MEANINGFUL_MSG,
        List.insertionSort, List.orderedInsert]
    rw [heval]
    intro hcontra
    exact normalize_pair_ne (59/65) (6/65) (by norm_num) (Option.some.inj hcontra)

/-- C7 (amended): centroid maintenance.  The issue's centroid is recomputed
from its member messages in ascending timestamp order; the `LIMIT N`
(default 5) is applied BEFORE the minimum word-count filter (default 5
words), so the qualifying vectors are those of the first N messages by
timestamp that carry an embedding and pass the word floor — possibly fewer
than N even when later qualifying messages exist.  If none qualify the
result is `none` (the caller then leaves the stored centroid and the index
untouched); otherwise it is the `linspace(1.0 → 0.3)`-weighted average of
the qualifying vectors, unit-normalized before being returned for storage
and upsert. -/
theorem C7_centroid_amended (db : DB) (iid : Nat) :
    update_issue_centroid db iid =
      (let Q := ((sortAscBy (fun m : MessageRec => m.timestamp)
          (db.messages.filter (fun m => m.issue_id = some iid))).take
            FIRST_N_MESSAGES_FOR_CENTROID).filterMap (fun m =>
              match m.embedding with
              | none => none
              | some v =>
                if wordCount m.text < MIN_WORDS_FOR_MEANINGFUL_MSG then none else some v)
       if Q = [] then none
       else some (_normalize (np_average Q (np_linspace 1 (3/10) Q.length)))) := by
  simp only [update_issue_centroid, DB.messagesForIssueAsc, centroid_vectors_eq_filterMap]
  cases hq : ((sortAscBy (fun m : MessageRec => m.timestamp)
      (db.messages.filter (fun m => m.issue_id = some iid))).take
        FIRST_N_MESSAGES_FOR_CENTROID).filterMap (fun m =>
          match m.embedding with
          | none => none
          | some v =>
            if wordCount m.text < MIN_WORDS_FOR_MEANINGFUL_MSG then none else some v) <;>
    simp [hq]

theorem mdGet_add_issue_preserved {store : VectorStore} {id : Nat}
    (h : store.mdGet id = none) (i : Nat) (v : Vec) (t : Option ℚ) (n : ℚ) :
    (store.add_issue i v t n).mdGet id = none := by
  simp only [VectorStore.add_issue]
  split
  · exact h
  · unfold VectorStore.mdGet at h ⊢
    by_cases hik : id = i
    · subst hik
      simp [dictGet_dictSet_self]
    · simpa [dictGet_dictSet_ne _ _ _ _ hik] using h

theorem mdGet_applyStoreOps_preserved {store : VectorStore} {id : Nat}
    (h : store.mdGet id = none) (ops : List StoreOp) :
    (applyStoreOps store ops).mdGet id = none := by
  induction ops generalizing store with
  | nil => exact h
  | cons op rest ih =>
    cases op with
    | upsert i v t n => exact ih (mdGet_add_issue_preserved h i v t n)

/-- C10: after every successful upsert (`add_issue` with a
dimension-matching vector) the store's cached metadata embedding for that
issue is reset to `None` and stays `None` across every further in-process
store mutation (only a rebuild from the database at process restart can
repopulate it); consequently the ANN search applies no metadata blending for
that issue (its combined score is the raw similarity, temporally blended at
most) and the hybrid rerank's metadata term is 0 (with the missing-centroid
fallback also degenerating to 0). -/
theorem C10_metadata_reset (store : VectorStore) (issue_id : Nat) (v : Vec)
    (t : Option ℚ) (now : ℚ)
    (hdim : (_normalize v).length = store.dim) :
    (store.add_issue issue_id v t now).mdGet issue_id = none ∧
    (∀ ops : List StoreOp,
      (applyStoreOps (store.add_issue issue_id v t now) ops).mdGet issue_id = none) ∧
    (∀ store' : VectorStore, store'.mdGet issue_id = none →
      (∀ pow2neg qts w hl emb raw,
        ann_combine store' pow2neg qts w hl emb issue_id raw =
          match qts, dictGet store'.issue_timestamps issue_id with
          | some q, some its =>
              (1 - w) * raw + w * temporal_decay_score pow2neg q its hl
          | _, _ => raw) ∧
      (∀ pow2neg sem md ts lbl now' issue, issue.id = issue_id →
        hybrid_score pow2neg store' sem md ts lbl now' issue =
          (3/10) * (match issue.embedding with
                    | some c => cosine_sim (some sem) (some (_normalize c))
                    | none => 0)
            + (2/10) * temporal_decay_score pow2neg ts
                ((dictGet store'.issue_timestamps issue.id).getD now')
                DEFAULT_TIME_DECAY_HOURS
            + classification_boost lbl issue.classification)) := by
  have base : (store.add_issue issue_id v t now).mdGet issue_id = none := by
    unfold VectorStore.add_issue VectorStore.mdGet
    rw [if_neg (not_not_intro hdim)]
    simp [dictGet_dictSet_self]
  refine ⟨base, fun ops => mdGet_applyStoreOps_preserved base ops, ?_⟩
  intro store' h'
  constructor
  · intro pow2neg qts w hl emb raw
    simp [ann_combine, h']
  · intro pow2neg sem md ts lbl now' issue hid
    cases hemb : issue.embedding <;>
      simp [hybrid_score, hid, hemb, h']

/-- Witness for C10 on the empty two-dimensional store and the zero vector
(whose `_normalize` image has the right length). -/
theorem C10_metadata_reset_witness :
    (C6store.add_issue 7 [0, 0] none 5).mdGet 7 = none ∧
    (∀ ops : List StoreOp,
      (applyStoreOps (C6store.add_issue 7 [0, 0] none 5) ops).mdGet 7 = none) ∧
    (∀ store' : VectorStore, store'.mdGet 7 = none →
      (∀ pow2neg qts w hl emb raw,
        ann_combine store' pow2neg qts w hl emb 7 raw =
          match qts, dictGet store'.issue_timestamps 7 with
          | some q, some its =>
              (1 - w) * raw + w * temporal_decay_score pow2neg q its hl
          | _, _ => raw) ∧
      (∀ pow2neg sem md ts lbl now' issue, issue.id = 7 →
        hybrid_score pow2neg store' sem md ts lbl now' issue =
          (3/10) * (match issue.embedding with
                    | some c => cosine_sim (some sem) (some (_normalize c))
                    | none => 0)
            + (2/10) * temporal_decay_score pow2neg ts
                ((dictGet store'.issue_timestamps issue.id).getD now')
                DEFAULT_TIME_DECAY_HOURS
            + classification_boost lbl issue.classification)) :=
  C10_metadata_reset C6store 7 [0, 0] none 5
    (by norm_num [_normalize, norm_sq, dot, rat_sqrt_zero, C6store])

theorem getIssue_self {db : DB} {k : Nat} {i : IssueRec} (h : db.getIssue k = some i) :
    db.getIssue i.id = some i := by
  have hk := getIssue_id h
  rw [hk]
  exact h

theorem mem_candidates_getIssue {db : DB} {ids : List (Nat × ℚ)} {i : IssueRec}
    (h : i ∈ (ids.map (fun c => db.getIssue c.1)).reduceOption) :
    db.getIssue i.id = some i := by
  rw [List.reduceOption_mem_iff] at h
  rcases List.mem_map.mp h with ⟨c, -, hc⟩
  exact getIssue_self hc

/-- Every existing issue chosen by `decide_issue` is the row the database
holds under its id: the thread, follow-up, short-text and oracle branches
return a `session.get` result directly, and the rerank branch returns a
member of the ANN candidate list, which was itself built from `session.get`
results. -/
theorem decide_issue_found {env : Env} {db : DB} {store : VectorStore} {text ts : String}
    {thread_ts : Option String} {channel : Option String} {cls : ClassifyResult}
    {sv mv : Vec} {mt : ℚ} {i : IssueRec} {r : Route}
    (h : decide_issue env db store text ts thread_ts channel cls sv mv mt = (some i, r)) :
    db.getIssue i.id = some i := by
  simp only [decide_issue] at h
  rw [if_pos (show DEFAULT_TOP_K < ANN_FETCH_K by
    norm_num [DEFAULT_TOP_K, ANN_FETCH_K])] at h
  split at h
  next issue heq1 =>
    simp only [Prod.mk.injEq] at h
    obtain ⟨h1, -⟩ := h
    obtain rfl := Option.some.inj h1
    split at heq1
    next => simp at heq1
    next =>
      split at heq1
      next => simp at heq1
      next parent hp =>
        split at heq1
        next => exact getIssue_self heq1
        next => simp at heq1
  next heq1 =>
    split at h
    next issue heq2 =>
      simp only [Prod.mk.injEq] at h
      obtain ⟨h1, -⟩ := h
      obtain rfl := Option.some.inj h1
      split at heq2
      next => simp at heq2
      next prev hprev =>
        split at heq2
        next =>
          split at heq2
          next => exact getIssue_self heq2
          next => simp at heq2
        next => simp at heq2
    next heq2 =>
      split at h
      next => simp at h
      next hne =>
        split at h
        next issue heq3 =>
          simp only [Prod.mk.injEq] at h
          obtain ⟨h1, -⟩ := h
          obtain rfl := Option.some.inj h1
          split at heq3
          next =>
            split at heq3
            next => simp at heq3
            next sid hsel =>
              split at heq3
              next => exact getIssue_self heq3
              next => simp at heq3
          next => simp at heq3
        next heq3 =>
          split at h
          next hrr => simp at h
          next best s tail hrr =>
            split at h
            next hacc =>
              simp only [Prod.mk.injEq] at h
              obtain ⟨h1, -⟩ := h
              obtain rfl := Option.some.inj h1
              have hmem0 := List.mem_cons_self (best, s) tail
              rw [← hrr] at hmem0
              simp only [compute_hybrid_scores_for_candidates] at hmem0
              rw [sortDescBy_mem] at hmem0
              rcases List.mem_map.mp hmem0 with ⟨issue, hmemc, heqp⟩
              simp only [Prod.mk.injEq] at heqp
              obtain ⟨rfl, -⟩ := heqp
              split at hmemc
              · exact mem_candidates_getIssue (List.mem_of_mem_take hmemc)
              · exact mem_candidates_getIssue (List.mem_of_mem_filter hmemc)
            next hconf =>
              split at h
              next => simp at h
              next sid hsel =>
                split at h
                next =>
                  split at h
                  next issue hgi =>
                    simp only [Prod.mk.injEq] at h
                    obtain ⟨h1, -⟩ := h
                    obtain rfl := Option.some.inj h1
                    exact getIssue_self hgi
                  next => simp at h
                next => simp at h
            next => simp at h

/-- When `decide_issue` resolves no existing issue, its route observer is
`.created`. -/
theorem decide_issue_none_route {env : Env} {db : DB} {store : VectorStore}
    {text ts : String} {thread_ts : Option String} {channel : Option String}
    {cls : ClassifyResult} {sv mv : Vec} {mt : ℚ} {r : Route}
    (h : decide_issue env db store text ts thread_ts channel cls sv mv mt = (none, r)) :
    r = .created := by
  simp only [decide_issue] at h
  rw [if_pos (show DEFAULT_TOP_K < ANN_FETCH_K by
    norm_num [DEFAULT_TOP_K, ANN_FETCH_K])] at h
  split at h
  next issue heq => simp at h
  next heq1 =>
    split at h
    next issue heq => simp at h
    next heq2 =>
      split at h
      next =>
        simp only [Prod.mk.injEq] at h
        exact h.2.symm
      next hne =>
        split at h
        next issue heq3 => simp at h
        next heq3 =>
          split at h
          next hrr =>
            simp only [Prod.mk.injEq] at h
            exact h.2.symm
          next best s tail hrr =>
            split at h
            next => simp at h
            next =>
              split at h
              next =>
                simp only [Prod.mk.injEq] at h
                exact h.2.symm
              next sid hsel =>
                split at h
                next =>
                  split at h
                  next issue hgi => simp at h
                  next =>
                    simp only [Prod.mk.injEq] at h
                    exact h.2.symm
                next =>
                  simp only [Prod.mk.injEq] at h
                  exact h.2.symm
            next =>
              simp only [Prod.mk.injEq] at h
              exact h.2.symm

/-- Replacing an issue row leaves the message table — the only input of the
centroid recomputation — untouched. -/
theorem update_issue_centroid_setIssue (db : DB) (i : IssueRec) (iid : Nat) :
    update_issue_centroid (db.setIssue i) iid = update_issue_centroid db iid := rfl

/-- C9 (amended): issue mutation on assignment.  When a persisted message
lands in an issue that already existed, only the thread-lookup path mutates
the issue row's status: there the issue is reopened if it was closed and its
`updated_at` is refreshed to now.  On every other assignment path
(follow-up, short-text, rerank, oracle confirmation) the issue's status is
left exactly as it was — a closed issue stays closed — and the row is
mutated exactly when the centroid recomputation of the reindex step
produces a centroid: then the centroid is stored and `updated_at` is
refreshed to now, otherwise the row is left entirely untouched. -/
theorem C9_issue_mutation_amended (env : Env) (st : SysState) (ev : SlackEvent)
    (m : MessageRec) (iid : Nat) (pre : IssueRec)
    (hm : (process_message env st ev).result = some m)
    (hid : m.issue_id = some iid)
    (hpre : st.db.getIssue iid = some pre)
    (hroute : (process_message env st ev).route ≠ .created) :
    ∃ post : IssueRec,
      (process_message env st ev).state.db.getIssue iid = some post ∧
      ((process_message env st ev).route = .thread →
        post.status = (if pre.status = "closed" then "open" else pre.status) ∧
        post.updated_at = env.now) ∧
      ((process_message env st ev).route ≠ .thread →
        post.status = pre.status ∧
        (update_issue_centroid (process_message env st ev).state.db iid = none →
          post = pre) ∧
        (∀ c, update_issue_centroid (process_message env st ev).state.db iid = some c →
          post = { pre with embedding := some c, updated_at := env.now })) := by
  have hdbeq := (get_vector_store_snd env st).2
  simp only [process_message, hdbeq] at hm hroute ⊢
  split at hm <;> rename_i h1
  · simp at hm
  split at hm <;> rename_i h2
  · simp at hm
  split at hm <;> rename_i h3
  · simp at hm
  split at hm <;> rename_i h4
  · simp at hm
  split at hm <;> rename_i h5
  · simp at hm
  split at hm <;> rename_i tstamp h6
  · simp at hm
  simp only [if_neg h1, if_neg h2, if_neg h3, if_neg h4, if_neg h5, h6,
    Option.getD_some] at hroute ⊢
  simp only [h6, Option.getD_some] at hm
  obtain rfl := (Option.some.inj hm).symm
  rcases hdec : decide_issue env st.db (get_vector_store env st).1
      (pyStrip (ev.text.getD "")) (ev.ts.getD "") ev.thread_ts ev.channel
      (env.classify (pyStrip (ev.text.getD "")))
      (get_semantic_embedding env (pyStrip (ev.text.getD "")))
      (get_metadata_embedding env (pyStrip (ev.text.getD "")) (ev.user.getD "")
        (ev.channel.getD "") (ev.ts.getD ""))
      tstamp with ⟨found, route⟩
  simp only [hdec] at hid hroute ⊢
  cases found with
  | none =>
    have := decide_issue_none_route hdec
    exact absurd this hroute
  | some found =>
    have hfound := decide_issue_found hdec
    cases route
    case created => exact absurd rfl hroute
    case thread =>
      simp only [resolve_issue_db] at hid ⊢
      by_cases hcl : found.status = "closed"
      · rw [if_pos hcl] at hid ⊢
        have hfid : found.id = iid := by simpa using hid
        obtain rfl := Option.some.inj ((hfid ▸ hfound).symm.trans hpre)
        simp only [reindex_step]
        split
        next hcent =>
          refine ⟨{ found with
            status := "open", updated_at := env.now }, ?_, ?_, ?_⟩
          · rw [← hfid]
            exact getIssue_setIssue st.db
              { found with status := "open", updated_at := env.now } hfound
          · intro _
            exact ⟨by simp [hcl], rfl⟩
          · intro hne
            exact absurd rfl hne
        next c hcent =>
          refine ⟨{ found with
            status := "open", updated_at := env.now, embedding := some c }, ?_, ?_, ?_⟩
          · rw [← hfid]
            exact getIssue_setIssue _ _ (getIssue_setIssue st.db
              { found with status := "open", updated_at := env.now } hfound)
          · intro _
            exact ⟨by simp [hcl], rfl⟩
          · intro hne
            exact absurd rfl hne
      · rw [if_neg hcl] at hid ⊢
        have hfid : found.id = iid := by simpa using hid
        obtain rfl := Option.some.inj ((hfid ▸ hfound).symm.trans hpre)
        simp only [reindex_step]
        split
        next hcent =>
          refine ⟨{ found with updated_at := env.now }, ?_, ?_, ?_⟩
          · rw [← hfid]
            exact getIssue_setIssue st.db { found with updated_at := env.now } hfound
          · intro _
            exact ⟨by simp [hcl], rfl⟩
          · intro hne
            exact absurd rfl hne
        next c hcent =>
          refine ⟨{ found with
            updated_at := env.now, embedding := some c }, ?_, ?_, ?_⟩
          · rw [← hfid]
            exact getIssue_setIssue _ _ (getIssue_setIssue st.db
              { found with updated_at := env.now } hfound)
          · intro _
            exact ⟨by simp [hcl], rfl⟩
          · intro hne
            exact absurd rfl hne
    all_goals {
      simp only [resolve_issue_db] at hid ⊢
      have hfid : found.id = iid := by simpa using hid
      obtain rfl := Option.some.inj ((hfid ▸ hfound).symm.trans hpre)
      simp only [reindex_step]
      split
      next hcent =>
        refine ⟨found, ?_, ?_, ?_⟩
        · rw [← hfid]
          exact hfound
        · intro h
          exact absurd h (by simp)
        · refine fun _ => ⟨rfl, fun _ => rfl, ?_⟩
          intro c hc
          rw [← hfid, hcent] at hc
          exact absurd hc (by simp)
      next c hcent =>
        refine ⟨{ found with
          embedding := some c, updated_at := env.now }, ?_, ?_, ?_⟩
        · rw [← hfid]
          exact getIssue_setIssue _ _ hfound
        · intro h
          exact absurd h (by simp)
        · refine fun _ => ⟨rfl, ?_, ?_⟩
          · intro hnone
            rw [update_issue_centroid_setIssue, ← hfid, hcent] at hnone
            exact absurd hnone (by simp)
          · intro c2 hc2
            rw [update_issue_centroid_setIssue, ← hfid, hcent] at hc2
            obtain rfl := Option.some.inj hc2
            rfl
    }

/-- Counterexample for C9 as stated: a message assigned to a CLOSED issue by
the high-confidence rerank branch (`route = .rerankAccept`) does not reopen
it — the reopen/refresh block (services.py 597-602) is the `else` of the
thread lookup only, so the issue stays closed. -/
theorem C9_closed_stays_closed_counterexample :
    (process_message C1env C9cexSt C9cexEv).result = some C9cexMsg ∧
    C9cexMsg.issue_id = some 1 ∧
    C9cexSt.db.getIssue 1 = some C9issue ∧
    C9issue.status = "closed" ∧
    (process_message C1env C9cexSt C9cexEv).route = Route.rerankAccept ∧
    Option.map (fun i => i.status)
      ((process_message C1env C9cexSt C9cexEv).state.db.getIssue 1) = some "closed" := by
  refine ⟨?_, rfl, ?_, rfl, ?_, ?_⟩ <;>
    norm_num +decide [process_message, decide_issue, resolve_issue_db, reindex_step,
      get_vector_store, C1env, C9cexSt, C9cexEv, C9cexMsg, C9issue, pyStrip, pyFalsy,
      pyTruthyId, wordCount, wordCountAux, get_semantic_embedding, get_metadata_embedding,
      _normalize, norm_sq, dot, DB.findMessageByTs, DB.getIssue, DB.setIssue,
      DB.mostRecentInChannel, DB.messagesForIssueAsc, VectorStore.search, VectorStore.mdGet,
      ann_combine, VectorStore.add_issue, update_issue_centroid, centroid_vectors,
      np_average, np_linspace, vscale, vadd, sortAscBy, sortDescBy, dictGet, dictSet,
      compute_hybrid_scores_for_candidates, hybrid_score, cosine_sim, temporal_decay_score,
      classification_boost, threshold_gate, cacheRecord, cacheMoveToEnd,
      List.insertionSort, List.orderedInsert, rat_sqrt_one, rat_sqrt_zero,
      DEFAULT_SEARCH_THRESHOLD, DEFAULT_TEMPORAL_WEIGHT, DEFAULT_TIME_DECAY_HOURS,
      DEFAULT_TOP_K, MAX_CACHE_SIZE, FIRST_N_MESSAGES_FOR_CENTROID,
      MIN_WORDS_FOR_MEANINGFUL_MSG, SHORT_MSG_WORD_THRESHOLD, ANN_FETCH_K, EMBEDDING_DIM]

/-- Witness for C9 on a concrete threaded reply to a closed issue: the
thread branch reopens it and refreshes `updated_at`. -/
theorem C9_issue_mutation_amended_witness :
    ∃ post : IssueRec,
      (process_message C1env C9st C2ev).state.db.getIssue 1 = some post ∧
      ((process_message C1env C9st C2ev).route = .thread →
        post.status = (if C9issue.status = "closed" then "open" else C9issue.status) ∧
        post.updated_at = C1env.now) ∧
      ((process_message C1env C9st C2ev).route ≠ .thread →
        post.status = C9issue.status ∧
        (update_issue_centroid (process_message C1env C9st C2ev).state.db 1 = none →
          post = C9issue) ∧
        (∀ c, update_issue_centroid (process_message C1env C9st C2ev).state.db 1 = some c →
          post = { C9issue with embedding := some c, updated_at := C1env.now })) :=
  have hm : (process_message C1env C9st C2ev).result = some C9msg := by
    norm_num +decide [process_message, decide_issue, resolve_issue_db, reindex_step,
      get_vector_store, C1env, C9st, C2ev, C9msg, C9issue, C2parent, pyStrip, pyFalsy,
      pyTruthyId, wordCount, wordCountAux, get_semantic_embedding, get_metadata_embedding,
      _normalize, norm_sq, dot, DB.findMessageByTs, DB.getIssue, DB.setIssue,
      DB.mostRecentInChannel, DB.messagesForIssueAsc, VectorStore.search, VectorStore.mdGet,
      ann_combine, VectorStore.add_issue, update_issue_centroid, centroid_vectors,
      np_average, np_linspace_two, vscale, vadd, sortAscBy, sortDescBy, dictGet, dictSet,
      compute_hybrid_scores_for_candidates, hybrid_score, cosine_sim, temporal_decay_score,
      classification_boost, threshold_gate, cacheRecord, cacheMoveToEnd,
      List.insertionSort, List.orderedInsert, rat_sqrt_one, rat_sqrt_zero,
      DEFAULT_SEARCH_THRESHOLD, DEFAULT_TEMPORAL_WEIGHT, DEFAULT_TIME_DECAY_HOURS,
      DEFAULT_TOP_K, MAX_CACHE_SIZE, FIRST_N_MESSAGES_FOR_CENTROID,
      MIN_WORDS_FOR_MEANINGFUL_MSG, SHORT_MSG_WORD_THRESHOLD, ANN_FETCH_K, EMBEDDING_DIM]
  have hpre : C9st.db.getIssue 1 = some C9issue := by
    norm_num +decide [DB.getIssue, C9st, C9issue, C2parent]
  have hroute : (process_message C1env C9st C2ev).route ≠ .created := by
    norm_num +decide [process_message, decide_issue, resolve_issue_db, reindex_step,
      get_vector_store, C1env, C9st, C2ev, C9issue, C2parent, pyStrip, pyFalsy,
      pyTruthyId, DB.findMessageByTs, DB.getIssue]
  C9_issue_mutation_amended C1env C9st C2ev C9msg 1 C9issue hm rfl hpre hroute

/-- C3: threshold gate bands.  With top reranked score `s` and base
threshold `T ≥ 0`: the candidate is accepted automatically iff
`s ≥ max(0.6, T)`; the procedure escalates to the disambiguation oracle iff
`T ≤ s < 0.6` or `0.5·T ≤ s < T`; and a new issue is created iff
`s < 0.5·T`. -/
theorem C3_threshold_gate_bands (T s : ℚ) (hT : 0 ≤ T) :
    (threshold_gate T s = .accept ↔ max (6/10) T ≤ s) ∧
    (threshold_gate T s = .confirm ↔ (T ≤ s ∧ s < 6/10) ∨ (T * (1/2) ≤ s ∧ s < T)) ∧
    (threshold_gate T s = .createNew ↔ s < T * (1/2)) := by
  have hhalf : T * (1/2) ≤ T := by linarith
  unfold threshold_gate
  by_cases h1 : T ≤ s
  · by_cases h2 : (6:ℚ)/10 ≤ s
    · rw [if_pos h1, if_pos h2]
      refine ⟨⟨fun _ => max_le h2 h1, fun _ => rfl⟩,
        ⟨(fun h => nomatch h), fun h => ?_⟩, ⟨(fun h => nomatch h), fun h => ?_⟩⟩
      · rcases h with ⟨_, hlt⟩ | ⟨_, hlt⟩ <;> linarith
      · linarith
    · rw [if_pos h1, if_neg h2]
      refine ⟨⟨(fun h => nomatch h), fun h => absurd (le_trans (le_max_left _ _) h) h2⟩,
        ⟨fun _ => Or.inl ⟨h1, lt_of_not_le h2⟩, fun _ => rfl⟩,
        ⟨(fun h => nomatch h), fun h => ?_⟩⟩
      linarith
  · rw [if_neg h1]
    by_cases h3 : T * (1/2) ≤ s
    · rw [if_pos h3]
      exact ⟨⟨(fun h => nomatch h), fun h => absurd (le_trans (le_max_right _ _) h) h1⟩,
        ⟨fun _ => Or.inr ⟨h3, lt_of_not_le h1⟩, fun _ => rfl⟩,
        ⟨(fun h => nomatch h), fun h => absurd h3 (not_le.mpr h)⟩⟩
    · rw [if_neg h3]
      refine ⟨⟨(fun h => nomatch h), fun h => absurd (le_trans (le_max_right _ _) h) h1⟩,
        ⟨(fun h => nomatch h), fun h => ?_⟩,
        ⟨fun _ => lt_of_not_le h3, fun _ => rfl⟩⟩
      rcases h with ⟨hle, _⟩ | ⟨hle, _⟩
      · exact absurd hle h1
      · exact absurd hle h3

/-- Witness for C3 at the default threshold `T = 0.35` and score `s = 0.5`. -/
theorem C3_threshold_gate_bands_witness :
    0 ≤ (35/100 : ℚ) ∧
    ((threshold_gate (35/100) (1/2) = .accept ↔ max (6/10) (35/100) ≤ (1/2 : ℚ)) ∧
     (threshold_gate (35/100) (1/2) = .confirm ↔
       ((35/100 : ℚ) ≤ 1/2 ∧ (1/2 : ℚ) < 6/10) ∨
       ((35/100 : ℚ) * (1/2) ≤ 1/2 ∧ (1/2 : ℚ) < 35/100)) ∧
     (threshold_gate (35/100) (1/2) = .createNew ↔ (1/2 : ℚ) < (35/100) * (1/2))) :=
  ⟨by norm_num, C3_threshold_gate_bands (35/100) (1/2) (by norm_num)⟩

end SlackBot
